import Mathlib

/-!
Verification of the UAV simulation server (`src/main.py`).

The embedding models the `uavs` table as a `List UAVRow` (one element per
row; `uav_id` is the table's primary key).  Float arithmetic in the source
is modelled over `ℚ`.  The ambient randomness (`random.uniform(-0.4, 0.4)`
drawn once per axis when an arriving UAV is spread around its target city)
is modelled by an injected oracle `sp : Nat → ℚ × ℚ` giving the spread pair
used for the row at each list position; theorems that depend on the range
of the draw carry the hypothesis that the oracle stays within ±0.4.
-/

namespace UAVSim

/-- One row of the `uavs` table of `main.py` (columns in source order;
`target_city` and `progress` are nullable in the schema). -/
structure UAVRow where
  uav_id : ℤ
  city_name : String
  x : ℚ
  y : ℚ
  altitude : ℚ
  speed : ℚ
  system_case : String
  target_city : Option String
  progress : Option ℤ
deriving DecidableEq

/-- The `UAV` pydantic model received by `PUT /city/{city}/uav`
(`target_city` defaults to `None`, `progress` defaults to 0). -/
structure UAV where
  uav_id : ℤ
  x : ℚ
  y : ℚ
  altitude : ℚ
  speed : ℚ
  system_case : String
  target_city : Option String := none
  progress : ℤ := 0
deriving DecidableEq

/-- The `TransferRequest` pydantic model received by `POST /transfer`. -/
structure TransferRequest where
  uav_id : ℤ
  from_city : String
  to_city : String
deriving DecidableEq

/-- The `CITY_COORDS` dict of `main.py`. -/
def CITY_COORDS : String → Option (ℚ × ℚ) := fun c =>
  if c = "Baghdad" then some (333/10, 444/10)
  else if c = "Basra" then some (305/10, 478/10)
  else if c = "Najaf" then some (3199/100, 4431/100)
  else none

/-- Outcome of `POST /transfer`: `ok` is `{"status": "ok"}`, `notFound` is the
`{"status": "error", "message": "UAV not found in source city"}` reply. -/
inductive TransferOutcome where
  | ok
  | notFound
deriving DecidableEq

/-- `POST /transfer` (`transfer_uav` in `main.py`): look up the UAV by
`(city_name = from_city, uav_id)`; if absent, reply with the error and leave
the table alone; otherwise set `target_city = to_city, progress = 0` on the
rows matched by that same filter. -/
def transfer_uav (req : TransferRequest) (rows : List UAVRow) :
    List UAVRow × TransferOutcome :=
  if rows.any (fun u => decide (u.city_name = req.from_city ∧ u.uav_id = req.uav_id)) then
    (rows.map (fun u =>
      if u.city_name = req.from_city ∧ u.uav_id = req.uav_id then
        { u with target_city := some req.to_city, progress := some 0 }
      else u), TransferOutcome.ok)
  else (rows, TransferOutcome.notFound)

/-- Outcome of `PUT /city/{city}/uav`: `ok` is the `{"status": "ok", ...}`
reply; `integrityError` models the uncaught `IntegrityError` raised when the
`INSERT` violates the `uav_id` primary-key constraint (the session is closed
without commit, so the table is unchanged). -/
inductive PutOutcome where
  | ok
  | integrityError
deriving DecidableEq

/-- The values dict built by `put_uav` for an `UPDATE` of an existing row:
every column is overwritten from the request. -/
def overwriteRow (city : String) (d : UAV) (u : UAVRow) : UAVRow :=
  { u with x := d.x, y := d.y, altitude := d.altitude, speed := d.speed,
           system_case := d.system_case, city_name := city,
           target_city := d.target_city, progress := some d.progress }

/-- The row built by `put_uav` for an `INSERT` (values dict plus `uav_id`). -/
def insertRow (city : String) (d : UAV) : UAVRow :=
  { uav_id := d.uav_id, city_name := city, x := d.x, y := d.y,
    altitude := d.altitude, speed := d.speed, system_case := d.system_case,
    target_city := d.target_city, progress := some d.progress }

/-- `PUT /city/{city}/uav` (`put_uav` in `main.py`): the existence check and
the `UPDATE` are both filtered by `(city_name = city, uav_id)`.  When the
check fails the code issues an `INSERT`; the `uav_id` primary key of the
`uavs` table makes that `INSERT` raise `IntegrityError` whenever some row in
any city already carries the id. -/
def put_uav (city : String) (d : UAV) (rows : List UAVRow) :
    List UAVRow × PutOutcome :=
  if rows.any (fun u => decide (u.city_name = city ∧ u.uav_id = d.uav_id)) then
    (rows.map (fun u =>
      if u.city_name = city ∧ u.uav_id = d.uav_id then overwriteRow city d u
      else u), PutOutcome.ok)
  else if rows.any (fun u => decide (u.uav_id = d.uav_id)) then
    (rows, PutOutcome.integrityError)
  else (rows ++ [insertRow city d], PutOutcome.ok)

/-- Loop body of `update_transfers` for one fetched row `u`, given the spread
pair `sp` the ambient RNG would deliver if this row arrives.  Returns the
row as left in the table and whether `moved` was incremented.  Rows that do
not satisfy the query filter (`city_name = city` and `target_city IS NOT
NULL`) are not fetched, hence unchanged; rows whose city or target city is
missing from `CITY_COORDS` hit the `continue`. -/
def tickRow (city : String) (sp : ℚ × ℚ) (u : UAVRow) : UAVRow × Bool :=
  if u.city_name = city then
    match u.target_city with
    | none => (u, false)
    | some tgt =>
      match CITY_COORDS u.city_name, CITY_COORDS tgt with
      | some A, some B =>
        let new_progress : ℤ := min (u.progress.getD 0 + 10) 100
        let t : ℚ := (new_progress : ℚ) / 100
        if 100 ≤ new_progress then
          ({ u with city_name := tgt, target_city := none, progress := some 100,
                    x := B.1 + sp.1, y := B.2 + sp.2 }, true)
        else
          ({ u with x := A.1 + t * (B.1 - A.1), y := A.2 + t * (B.2 - A.2),
                    progress := some new_progress }, true)
      | some _, none => (u, false)
      | none, _ => (u, false)
  else (u, false)

/-- Whether `update_transfers` processing city `city` increments `moved`
for row `u` (independent of the spread draw). -/
def movedFlag (city : String) (u : UAVRow) : Bool :=
  if u.city_name = city then
    match u.target_city with
    | none => false
    | some tgt => (CITY_COORDS u.city_name).isSome && (CITY_COORDS tgt).isSome
  else false

/-- The loop of `update_transfers` over the table suffix starting at list
position `i` (position indexes the spread oracle). -/
def run_transfers (city : String) (sp : Nat → ℚ × ℚ) : Nat → List UAVRow → List UAVRow × Nat
  | _, [] => ([], 0)
  | i, u :: rest =>
    let p := tickRow city (sp i) u
    let r := run_transfers city sp (i + 1) rest
    (p.1 :: r.1, r.2 + (if p.2 then 1 else 0))

/-- `update_transfers(session, city)` of `main.py`: every row is updated at
most once (each `UPDATE` is keyed by the primary key `uav_id`), so the whole
call acts row-wise on the table; it returns the new table and `moved`. -/
def update_transfers (city : String) (sp : Nat → ℚ × ℚ) (rows : List UAVRow) :
    List UAVRow × Nat :=
  run_transfers city sp 0 rows

/-- The collision test of `process_uavs`, in squared form:
`sqrt(dx*dx + dy*dy) < th` is equivalent to `dx^2 + dy^2 < th^2` for a
positive threshold (see `too_close_sqrt` below). -/
def too_close (a b : UAVRow) (th : ℚ) : Bool :=
  decide ((a.x - b.x) ^ 2 + (a.y - b.y) ^ 2 < th ^ 2)

/-- The double loop of `process_uavs` (`for i in range(n): for j in
range(i+1, n)`): the head element is paired with every later element,
then the scan recurses on the tail. -/
def count_collisions : List UAVRow → ℚ → Nat
  | [], _ => 0
  | u :: rest, th => rest.countP (fun v => too_close u v th) + count_collisions rest th

/-- The hard-coded collision threshold of `process_uavs`. -/
def COLLISION_THRESHOLD : ℚ := 5

/-- Bounding box spanned by the three `CITY_COORDS` anchors:
x ∈ [30.5, 33.3], y ∈ [44.31, 47.8]. -/
def in_anchor_bbox (x y : ℚ) : Prop :=
  305/10 ≤ x ∧ x ≤ 333/10 ∧ 4431/100 ≤ y ∧ y ≤ 478/10

/-- The anchors' bounding box enlarged by the 0.4 spread margin on each
side: x ∈ [30.1, 33.7], y ∈ [43.91, 48.2]. -/
def in_spread_bbox (x y : ℚ) : Prop :=
  301/10 ≤ x ∧ x ≤ 337/10 ∧ 4391/100 ≤ y ∧ y ≤ 482/10

/-- Default row used with `List.getD`. -/
def dummyRow : UAVRow :=
  { uav_id := 0, city_name := "", x := 0, y := 0, altitude := 0, speed := 0,
    system_case := "normal", target_city := none, progress := some 0 }

/-- Anchor of Baghdad. -/
theorem CITY_COORDS_Baghdad : CITY_COORDS "Baghdad" = some (333/10, 444/10) := rfl

/-- Anchor of Basra. -/
theorem CITY_COORDS_Basra : CITY_COORDS "Basra" = some (305/10, 478/10) := rfl

/-- Anchor of Najaf. -/
theorem CITY_COORDS_Najaf : CITY_COORDS "Najaf" = some (3199/100, 4431/100) := rfl

/-- The collision test of the source takes a square root; over `ℝ` the
squared form used in `too_close` is equivalent for a positive threshold. -/
theorem too_close_sqrt (a b : UAVRow) (th : ℚ) (hth : 0 < th) :
    (Real.sqrt (((a.x - b.x) ^ 2 + (a.y - b.y) ^ 2 : ℚ) : ℝ) < (th : ℝ)) ↔
      too_close a b th = true := by
  rw [Real.sqrt_lt' (by exact_mod_cast hth)]
  simp only [too_close, decide_eq_true_eq]
  push_cast
  constructor <;> intro h <;> exact_mod_cast h

/-- The `moved` increment of one loop iteration does not depend on the
spread draw. -/
theorem tickRow_snd (city : String) (sp : ℚ × ℚ) (u : UAVRow) :
    (tickRow city sp u).2 = movedFlag city u := by
  unfold tickRow movedFlag
  split
  · cases htc : u.target_city with
    | none => rfl
    | some tgt =>
      cases hA : CITY_COORDS u.city_name with
      | none => simp [hA]
      | some A =>
        cases hB : CITY_COORDS tgt with
        | none => simp [hA, hB]
        | some B =>
          simp only [hA, hB, Option.isSome_some, Bool.and_self]
          split <;> rfl
  · rfl

/-- A row the query does not select (`city_name ≠ city`) is untouched. -/
theorem tickRow_not_city (city : String) (sp : ℚ × ℚ) (u : UAVRow)
    (h : u.city_name ≠ city) : tickRow city sp u = (u, false) := by
  simp [tickRow, h]

/-- A row with no `target_city` is not selected by the query. -/
theorem tickRow_no_target (city : String) (sp : ℚ × ℚ) (u : UAVRow)
    (h : u.target_city = none) : tickRow city sp u = (u, false) := by
  unfold tickRow
  split
  · simp [h]
  · rfl

/-- A selected row whose city or target city is missing from `CITY_COORDS`
hits the `continue`: it is untouched and not counted. -/
theorem tickRow_bad_coords (city : String) (sp : ℚ × ℚ) (u : UAVRow) (tgt : String)
    (htgt : u.target_city = some tgt)
    (h : CITY_COORDS u.city_name = none ∨ CITY_COORDS tgt = none) :
    tickRow city sp u = (u, false) := by
  unfold tickRow
  split
  · rw [htgt]
    rcases h with h | h
    · simp [h]
    · cases hA : CITY_COORDS u.city_name <;> simp [hA, h]
  · rfl

/-- Arrival branch of the loop body: when the incremented progress reaches
100 the row is rewritten to the target city with the spread applied. -/
theorem tickRow_arrival (city : String) (sp : ℚ × ℚ) (u : UAVRow) (tgt : String)
    (A B : ℚ × ℚ) (hc : u.city_name = city) (htgt : u.target_city = some tgt)
    (hA : CITY_COORDS u.city_name = some A) (hB : CITY_COORDS tgt = some B)
    (hfin : 100 ≤ u.progress.getD 0 + 10) :
    tickRow city sp u =
      ({ u with city_name := tgt, target_city := none, progress := some 100,
                x := B.1 + sp.1, y := B.2 + sp.2 }, true) := by
  have hmin : min (u.progress.getD 0 + 10) 100 = 100 := min_eq_right hfin
  have hA2 : CITY_COORDS city = some A := by rw [← hc]; exact hA
  simp [tickRow, hc, htgt, hA2, hB, hmin]

/-- Interpolation branch of the loop body: when the incremented progress
stays below 100 the row keeps its city and moves to the interpolated
point at fraction `new_progress / 100`. -/
theorem tickRow_advance (city : String) (sp : ℚ × ℚ) (u : UAVRow) (tgt : String)
    (A B : ℚ × ℚ) (hc : u.city_name = city) (htgt : u.target_city = some tgt)
    (hA : CITY_COORDS u.city_name = some A) (hB : CITY_COORDS tgt = some B)
    (hlt : u.progress.getD 0 + 10 < 100) :
    tickRow city sp u =
      ({ u with
          x := A.1 + ((u.progress.getD 0 + 10 : ℤ) : ℚ) / 100 * (B.1 - A.1),
          y := A.2 + ((u.progress.getD 0 + 10 : ℤ) : ℚ) / 100 * (B.2 - A.2),
          progress := some (u.progress.getD 0 + 10) }, true) := by
  have hmin : min (u.progress.getD 0 + 10) 100 = u.progress.getD 0 + 10 :=
    min_eq_left (le_of_lt hlt)
  have hnot : ¬ (100 ≤ u.progress.getD 0 + 10) := not_le.mpr hlt
  have hA2 : CITY_COORDS city = some A := by rw [← hc]; exact hA
  simp [tickRow, hc, htgt, hA2, hB, hmin, hnot]

/-- The table after `update_transfers` is the row-wise image of the loop
body, the spread oracle being consumed at the row's list position. -/
theorem run_transfers_fst_get (city : String) (sp : Nat → ℚ × ℚ)
    (rows : List UAVRow) :
    ∀ i k : Nat, (run_transfers city sp i rows).1[k]? =
      (rows[k]?).map (fun u => (tickRow city (sp (i + k)) u).1) := by
  induction rows with
  | nil => intro i k; simp [run_transfers]
  | cons u rest ih =>
    intro i k
    cases k with
    | zero => simp [run_transfers]
    | succ k =>
      simp only [run_transfers, List.getElem?_cons_succ]
      rw [ih (i + 1) k]
      simp only [show i + 1 + k = i + (k + 1) from by omega]

/-- The `moved` counter returned by `update_transfers` counts exactly the
rows whose `movedFlag` is set. -/
theorem run_transfers_snd (city : String) (sp : Nat → ℚ × ℚ)
    (rows : List UAVRow) :
    ∀ i : Nat, (run_transfers city sp i rows).2 = rows.countP (movedFlag city) := by
  induction rows with
  | nil => intro i; simp [run_transfers]
  | cons u rest ih =>
    intro i
    simp only [run_transfers, List.countP_cons, ih (i + 1), tickRow_snd]

/-- Every anchor in `CITY_COORDS` lies in the anchors' bounding box. -/
theorem anchor_mem_bbox (c : String) (p : ℚ × ℚ) (h : CITY_COORDS c = some p) :
    in_anchor_bbox p.1 p.2 := by
  unfold CITY_COORDS at h
  split_ifs at h <;> simp_all <;> rw [← h] <;> norm_num [in_anchor_bbox]

/-- A convex combination stays between bounds shared by its endpoints. -/
theorem lerp_mem (lo hi a b t : ℚ) (ha0 : lo ≤ a) (ha1 : a ≤ hi)
    (hb0 : lo ≤ b) (hb1 : b ≤ hi) (ht0 : 0 ≤ t) (ht1 : t ≤ 1) :
    lo ≤ a + t * (b - a) ∧ a + t * (b - a) ≤ hi := by
  constructor
  · nlinarith [mul_nonneg ht0 (sub_nonneg.mpr hb0),
      mul_nonneg (sub_nonneg.mpr ht1) (sub_nonneg.mpr ha0)]
  · nlinarith [mul_nonneg ht0 (sub_nonneg.mpr hb0),
      mul_nonneg (sub_nonneg.mpr ht1) (sub_nonneg.mpr ha0)]

/-- A list count as a sum of indicators over positions. -/
theorem countP_eq_sum_range (p : UAVRow → Bool) (l : List UAVRow) :
    l.countP p = ∑ j ∈ Finset.range l.length, if p (l.getD j dummyRow) then 1 else 0 := by
  induction l with
  | nil => simp
  | cons a l ih =>
    rw [List.countP_cons, List.length_cons, Finset.sum_range_succ']
    simp [List.getD_cons_succ, List.getD_cons_zero, ih]

/-- The nested loop of `process_uavs` counts exactly the position pairs
`(i, j)` with `i < j` whose rows pass the distance test: every unordered
pair is examined exactly once. -/
theorem count_collisions_characterization (l : List UAVRow) (th : ℚ) :
    count_collisions l th =
      ((Finset.range l.length ×ˢ Finset.range l.length).filter
        (fun q => q.1 < q.2 ∧
          too_close (l.getD q.1 dummyRow) (l.getD q.2 dummyRow) th = true)).card := by
  induction l with
  | nil => simp [count_collisions]
  | cons u rest ih =>
    rw [count_collisions, Finset.card_filter, Finset.sum_product]
    simp only [List.length_cons]
    rw [Finset.sum_range_succ']
    have h0 : (∑ j ∈ Finset.range (rest.length + 1),
        if 0 < j ∧ too_close ((u :: rest).getD 0 dummyRow)
            ((u :: rest).getD j dummyRow) th = true then 1 else 0)
        = rest.countP (fun v => too_close u v th) := by
      rw [Finset.sum_range_succ']
      simp [List.getD_cons_succ, List.getD_cons_zero,
        countP_eq_sum_range (fun v => too_close u v th) rest]
    have h1 : (∑ i ∈ Finset.range rest.length, ∑ j ∈ Finset.range (rest.length + 1),
        if i + 1 < j ∧ too_close ((u :: rest).getD (i + 1) dummyRow)
            ((u :: rest).getD j dummyRow) th = true then 1 else 0)
        = count_collisions rest th := by
      rw [ih, Finset.card_filter, Finset.sum_product]
      apply Finset.sum_congr rfl
      intro i _
      rw [Finset.sum_range_succ']
      simp [List.getD_cons_succ, Nat.succ_lt_succ_iff]
    rw [h0, h1]
    omega

/-- A set `movedFlag` identifies a selected row with both anchors known. -/
theorem movedFlag_decomp (city : String) (u : UAVRow) (hf : movedFlag city u = true) :
    u.city_name = city ∧ ∃ tgt A B, u.target_city = some tgt ∧
      CITY_COORDS u.city_name = some A ∧ CITY_COORDS tgt = some B := by
  unfold movedFlag at hf
  by_cases hc : u.city_name = city
  · refine ⟨hc, ?_⟩
    rw [if_pos hc] at hf
    cases htc : u.target_city with
    | none => rw [htc] at hf; exact absurd hf (by simp)
    | some tgt =>
      rw [htc] at hf
      simp only [Bool.and_eq_true, Option.isSome_iff_exists] at hf
      obtain ⟨⟨A, hA⟩, B, hB⟩ := hf
      exact ⟨tgt, A, B, rfl, hA, hB⟩
  · rw [if_neg hc] at hf
    exact absurd hf (by simp)

/-- One loop iteration never decreases a progress that was at most 100. -/
theorem tickRow_progress_mono (city : String) (sp : ℚ × ℚ) (u : UAVRow)
    (h1 : u.progress.getD 0 ≤ 100) :
    u.progress.getD 0 ≤ (tickRow city sp u).1.progress.getD 0 := by
  unfold tickRow
  split
  · cases htc : u.target_city with
    | none => simp
    | some tgt =>
      cases hA : CITY_COORDS u.city_name with
      | none => simp [hA]
      | some A =>
        cases hB : CITY_COORDS tgt with
        | none => simp [hA, hB]
        | some B =>
          simp only [hA, hB]
          split
          · simpa using h1
          · dsimp only
            rw [Option.getD_some]
            exact le_min (le_add_of_nonneg_right (by norm_num)) h1
  · simp

/-- One loop iteration keeps the progress of a selected row with known
anchors inside `[0, 100]`, provided the stored progress was not negative. -/
theorem tickRow_progress_range (city : String) (sp : ℚ × ℚ) (u : UAVRow)
    (hf : movedFlag city u = true) (h0 : 0 ≤ u.progress.getD 0) :
    0 ≤ (tickRow city sp u).1.progress.getD 0 ∧
      (tickRow city sp u).1.progress.getD 0 ≤ 100 := by
  obtain ⟨hc, tgt, A, B, htgt, hA, hB⟩ := movedFlag_decomp city u hf
  by_cases hfin : 100 ≤ u.progress.getD 0 + 10
  · rw [tickRow_arrival city sp u tgt A B hc htgt hA hB hfin]
    simp
  · push_neg at hfin
    rw [tickRow_advance city sp u tgt A B hc htgt hA hB hfin]
    simp only [Option.getD_some]
    omega

/-- Spread oracle that always draws (0, 0). -/
def zeroSp : Nat → ℚ × ℚ := fun _ => (0, 0)

/-- Scenario 1 entity at (0, 0). -/
def scenarioRowA : UAVRow :=
  { uav_id := 1, city_name := "Baghdad", x := 0, y := 0, altitude := 0,
    speed := 0, system_case := "normal", target_city := none, progress := some 0 }

/-- Scenario 1 entity at (3, 0). -/
def scenarioRowB : UAVRow := { scenarioRowA with uav_id := 2, x := 3 }

/-- Transfer request naming an entity that is not in the stated city. -/
def reqW : TransferRequest := { uav_id := 5, from_city := "Baghdad", to_city := "Basra" }

/-- A row in Najaf, not transferring. -/
def rowW : UAVRow :=
  { uav_id := 1, city_name := "Najaf", x := 1, y := 2, altitude := 3, speed := 4,
    system_case := "normal", target_city := none, progress := some 0 }

/-- A transferring row halfway from Baghdad to Basra. -/
def rowMid : UAVRow :=
  { uav_id := 21, city_name := "Baghdad", x := 333/10, y := 444/10, altitude := 10,
    speed := 2, system_case := "normal", target_city := some "Basra", progress := some 50 }

/-- A transferring row whose current city has no coordinates. -/
def rowBadCity : UAVRow :=
  { uav_id := 11, city_name := "Atlantis", x := 0, y := 0, altitude := 0, speed := 1,
    system_case := "normal", target_city := some "Basra", progress := some 50 }

/-- C2: a transfer request whose (uav id, source city) pair matches no row
fails with the not-found reply and leaves the table completely unchanged;
otherwise the request succeeds, the matched row gets `target_city` set to
the destination and `progress` reset to 0, and every other row is left
untouched. -/
theorem transfer_request_spec (req : TransferRequest) (rows : List UAVRow) :
    ((¬ ∃ u ∈ rows, u.city_name = req.from_city ∧ u.uav_id = req.uav_id) →
      transfer_uav req rows = (rows, TransferOutcome.notFound))
    ∧ ((∃ u ∈ rows, u.city_name = req.from_city ∧ u.uav_id = req.uav_id) →
      (transfer_uav req rows).2 = TransferOutcome.ok ∧
      ∀ k : Nat, (transfer_uav req rows).1[k]? =
        (rows[k]?).map (fun u =>
          if u.city_name = req.from_city ∧ u.uav_id = req.uav_id then
            { u with target_city := some req.to_city, progress := some 0 }
          else u)) := by
  constructor
  · intro h
    have hany : ¬ (rows.any
        (fun u => decide (u.city_name = req.from_city ∧ u.uav_id = req.uav_id)) = true) := by
      rw [List.any_eq_true]
      simpa using h
    simp only [transfer_uav, if_neg hany]
  · intro h
    have hany : rows.any
        (fun u => decide (u.city_name = req.from_city ∧ u.uav_id = req.uav_id)) = true := by
      rw [List.any_eq_true]
      simpa using h
    constructor
    · simp only [transfer_uav, if_pos hany]
    · intro k
      simp only [transfer_uav, if_pos hany]
      exact List.getElem?_map _ rows k

/-- Witness for `transfer_request_spec`: id 5 is absent from Baghdad, so the
request fails and the single-row table is unchanged. -/
theorem transfer_request_spec_witness :
    transfer_uav reqW [rowW] = ([rowW], TransferOutcome.notFound) :=
  (transfer_request_spec reqW [rowW]).1 (by decide)

/-- C3: the collision detector scans every unordered index pair of the
entity list exactly once (indices `i`, then `j > i`) and counts exactly
those pairs whose planar distance is strictly below the threshold; the pair
at (0,0) and (3,0) gives one collision at the hard-coded threshold 5 and
none at threshold 2. -/
theorem collision_scan_spec :
    (∀ (l : List UAVRow) (th : ℚ),
      count_collisions l th =
        ((Finset.range l.length ×ˢ Finset.range l.length).filter
          (fun q => q.1 < q.2 ∧
            too_close (l.getD q.1 dummyRow) (l.getD q.2 dummyRow) th = true)).card)
    ∧ count_collisions [scenarioRowA, scenarioRowB] COLLISION_THRESHOLD = 1
    ∧ count_collisions [scenarioRowA, scenarioRowB] 2 = 0 := by
  refine ⟨count_collisions_characterization, ?_, ?_⟩
  · norm_num [count_collisions, List.countP_cons, too_close,
      scenarioRowA, scenarioRowB, COLLISION_THRESHOLD]
  · norm_num [count_collisions, List.countP_cons, too_close,
      scenarioRowA, scenarioRowB]

/-- C7: across one call of `update_transfers`, a transferring row whose
stored progress lies in `[0, 100]` never sees its progress decrease. -/
theorem transfer_progress_monotone (city : String) (sp : Nat → ℚ × ℚ)
    (rows : List UAVRow) (k : Nat) (u : UAVRow)
    (hk : rows[k]? = some u) (_htr : u.target_city.isSome = true)
    (_h0 : 0 ≤ u.progress.getD 0) (h1 : u.progress.getD 0 ≤ 100) :
    ∃ u' : UAVRow, (update_transfers city sp rows).1[k]? = some u' ∧
      u.progress.getD 0 ≤ u'.progress.getD 0 := by
  rw [update_transfers, run_transfers_fst_get, hk]
  exact ⟨(tickRow city (sp (0 + k)) u).1, by simp,
    tickRow_progress_mono city (sp (0 + k)) u h1⟩

/-- Witness for `transfer_progress_monotone` at a row with progress 50. -/
theorem transfer_progress_monotone_witness :
    ∃ u' : UAVRow, (update_transfers "Baghdad" zeroSp [rowMid]).1[0]? = some u' ∧
      rowMid.progress.getD 0 ≤ u'.progress.getD 0 :=
  transfer_progress_monotone "Baghdad" zeroSp [rowMid] 0 rowMid rfl rfl
    (by decide) (by decide)

/-- C8: once a transfer is finalized (`target_city` cleared), every later
call of the transfer-advance step leaves the row entirely unchanged, since
the query selects only rows with `target_city` set. -/
theorem finalized_transfer_terminal (city : String) (sp : Nat → ℚ × ℚ)
    (rows : List UAVRow) (k : Nat) (u : UAVRow)
    (hk : rows[k]? = some u) (hdone : u.target_city = none) :
    (update_transfers city sp rows).1[k]? = some u := by
  rw [update_transfers, run_transfers_fst_get, hk]
  simp only [Option.map_some', Nat.zero_add]
  rw [tickRow_no_target city (sp k) u hdone]

/-- Witness for `finalized_transfer_terminal` on a non-transferring row. -/
theorem finalized_transfer_terminal_witness :
    (update_transfers "Najaf" zeroSp [rowW]).1[0]? = some rowW :=
  finalized_transfer_terminal "Najaf" zeroSp [rowW] 0 rowW rfl rfl

/-- C9: a transferring row whose current city or target city is missing
from `CITY_COORDS` is silently skipped: the row is unchanged, no error is
raised, and `moved` — which counts exactly the rows with `movedFlag` set —
does not count it. -/
theorem unknown_city_skipped (city : String) (sp : Nat → ℚ × ℚ)
    (rows : List UAVRow) (k : Nat) (u : UAVRow) (tgt : String)
    (hk : rows[k]? = some u) (htgt : u.target_city = some tgt)
    (hbad : CITY_COORDS u.city_name = none ∨ CITY_COORDS tgt = none) :
    (update_transfers city sp rows).1[k]? = some u ∧
    (update_transfers city sp rows).2 = rows.countP (movedFlag city) ∧
    movedFlag city u = false := by
  refine ⟨?_, run_transfers_snd city sp rows 0, ?_⟩
  · rw [update_transfers, run_transfers_fst_get, hk]
    simp only [Option.map_some', Nat.zero_add]
    rw [tickRow_bad_coords city (sp k) u tgt htgt hbad]
  · unfold movedFlag
    split
    · rw [htgt]
      rcases hbad with h | h <;> simp [h]
    · rfl

/-- Witness for `unknown_city_skipped`: a row in the unknown city
"Atlantis" is skipped and uncounted. -/
theorem unknown_city_skipped_witness :
    (update_transfers "Atlantis" zeroSp [rowBadCity]).1[0]? = some rowBadCity ∧
    (update_transfers "Atlantis" zeroSp [rowBadCity]).2 =
      [rowBadCity].countP (movedFlag "Atlantis") ∧
    movedFlag "Atlantis" rowBadCity = false :=
  unknown_city_skipped "Atlantis" zeroSp [rowBadCity] 0 rowBadCity "Basra" rfl rfl
    (Or.inl (by decide))

/-- An avoidance-flagged row one tick away from finishing a Baghdad → Basra
transfer. -/
def rowArr : UAVRow :=
  { uav_id := 7, city_name := "Baghdad", x := 333/10, y := 444/10, altitude := 100,
    speed := 5, system_case := "avoidance", target_city := some "Basra",
    progress := some 93 }

/-- A concrete in-range spread draw: (0.3, -0.25) on every call. -/
def spArr : Nat → ℚ × ℚ := fun _ => (3/10, -(1/4))

/-- C1 counterexample: on arrival the code writes `progress = 100` — it is
not reset to any not-transferring sentinel (neither `NULL` nor the model
default 0) — and `system_case` is left untouched, so an avoidance-flagged
entity does not come out in the Normal state. -/
theorem arrival_progress_not_reset_cex :
    ((update_transfers "Baghdad" spArr [rowArr]).1.getD 0 dummyRow).progress = some 100 ∧
    ((update_transfers "Baghdad" spArr [rowArr]).1.getD 0 dummyRow).progress ≠ none ∧
    ((update_transfers "Baghdad" spArr [rowArr]).1.getD 0 dummyRow).progress ≠ some 0 ∧
    ((update_transfers "Baghdad" spArr [rowArr]).1.getD 0 dummyRow).city_name = "Basra" ∧
    ((update_transfers "Baghdad" spArr [rowArr]).1.getD 0 dummyRow).target_city = none ∧
    ((update_transfers "Baghdad" spArr [rowArr]).1.getD 0 dummyRow).system_case
      = "avoidance" := by
  norm_num [update_transfers, run_transfers, tickRow, rowArr, spArr, dummyRow,
    CITY_COORDS_Baghdad, CITY_COORDS_Basra, Option.some_ne_none,
    show min ((103 : ℤ)) 100 = 100 from by decide]

/-- C1 amended: when the incremented progress reaches 100, the tick
finalizes the transfer — the row's city becomes the target city, its
`target_city` is cleared (so it leaves the Transfer state; `system_case` is
untouched), its progress is set to 100 (progressMax, not a
not-transferring sentinel), and its position becomes the target anchor
plus the per-axis spread draw, which stays within ±0.4 of the anchor when
the draw is in range. -/
theorem arrival_finalize_spec (city : String) (sp : Nat → ℚ × ℚ)
    (rows : List UAVRow) (k : Nat) (u : UAVRow) (tgt : String) (A B : ℚ × ℚ)
    (hk : rows[k]? = some u) (hc : u.city_name = city)
    (htgt : u.target_city = some tgt)
    (hA : CITY_COORDS u.city_name = some A) (hB : CITY_COORDS tgt = some B)
    (hfin : 100 ≤ u.progress.getD 0 + 10)
    (hsp : -(2/5) ≤ (sp k).1 ∧ (sp k).1 ≤ 2/5 ∧ -(2/5) ≤ (sp k).2 ∧ (sp k).2 ≤ 2/5) :
    (update_transfers city sp rows).1[k]? =
      some { u with city_name := tgt, target_city := none, progress := some 100,
                    x := B.1 + (sp k).1, y := B.2 + (sp k).2 } ∧
    B.1 - 2/5 ≤ B.1 + (sp k).1 ∧ B.1 + (sp k).1 ≤ B.1 + 2/5 ∧
    B.2 - 2/5 ≤ B.2 + (sp k).2 ∧ B.2 + (sp k).2 ≤ B.2 + 2/5 := by
  obtain ⟨s1, s2, s3, s4⟩ := hsp
  refine ⟨?_, by linarith, by linarith, by linarith, by linarith⟩
  rw [update_transfers, run_transfers_fst_get, hk]
  simp only [Option.map_some', Nat.zero_add]
  rw [tickRow_arrival city (sp k) u tgt A B hc htgt hA hB hfin]

/-- Witness for `arrival_finalize_spec` at the avoidance-flagged row with
progress 93 and the in-range draw (0.3, -0.25). -/
theorem arrival_finalize_spec_witness :
    (update_transfers "Baghdad" spArr [rowArr]).1[0]? =
      some { rowArr with city_name := "Basra", target_city := none, progress := some 100,
                          x := 305/10 + (spArr 0).1, y := 478/10 + (spArr 0).2 } ∧
    (305/10 : ℚ) - 2/5 ≤ 305/10 + (spArr 0).1 ∧ (305/10 : ℚ) + (spArr 0).1 ≤ 305/10 + 2/5 ∧
    (478/10 : ℚ) - 2/5 ≤ 478/10 + (spArr 0).2 ∧ (478/10 : ℚ) + (spArr 0).2 ≤ 478/10 + 2/5 :=
  arrival_finalize_spec "Baghdad" spArr [rowArr] 0 rowArr "Basra"
    (333/10, 444/10) (305/10, 478/10) rfl rfl rfl rfl rfl (by decide)
    (by norm_num [spArr])

/-- A transferring row at progress 93 with a nonzero pending spread draw. -/
def rowLerp : UAVRow :=
  { uav_id := 3, city_name := "Baghdad", x := 32, y := 45, altitude := 0, speed := 1,
    system_case := "normal", target_city := some "Basra", progress := some 93 }

/-- A concrete in-range spread draw: (0.3, 0.3) on every call. -/
def spLerp : Nat → ℚ × ℚ := fun _ => (3/10, 3/10)

/-- C4 counterexample: for progress 93 (still short of progressMax) the
incremented progress caps at 100 and the arrival branch overrides the
interpolated point: the new x is 30.8 (Basra anchor 30.5 plus the 0.3
spread draw), not the interpolation value 30.5 that the claim dictates. -/
theorem lerp_overridden_on_arrival_cex :
    ((update_transfers "Baghdad" spLerp [rowLerp]).1.getD 0 dummyRow).x = 308/10 ∧
    ¬ (((update_transfers "Baghdad" spLerp [rowLerp]).1.getD 0 dummyRow).x
        = 333/10 + ((100 : ℚ) / 100) * (305/10 - 333/10)) := by
  norm_num [update_transfers, run_transfers, tickRow, rowLerp, spLerp, dummyRow,
    CITY_COORDS_Baghdad, CITY_COORDS_Basra,
    show min ((103 : ℤ)) 100 = 100 from by decide]

/-- C4 amended: for a transferring entity whose progress after the +10
increment is still strictly below 100, the tick advances progress by
exactly 10 and sets the position to the interpolation between the source
and target anchors at fraction `new progress / 100`; when the increment
reaches 100 the arrival branch overrides the position instead. -/
theorem transfer_lerp_spec (city : String) (sp : Nat → ℚ × ℚ)
    (rows : List UAVRow) (k : Nat) (u : UAVRow) (tgt : String) (A B : ℚ × ℚ)
    (hk : rows[k]? = some u) (hc : u.city_name = city)
    (htgt : u.target_city = some tgt)
    (hA : CITY_COORDS u.city_name = some A) (hB : CITY_COORDS tgt = some B)
    (hlt : u.progress.getD 0 + 10 < 100) :
    (update_transfers city sp rows).1[k]? =
      some { u with
        x := A.1 + ((u.progress.getD 0 + 10 : ℤ) : ℚ) / 100 * (B.1 - A.1),
        y := A.2 + ((u.progress.getD 0 + 10 : ℤ) : ℚ) / 100 * (B.2 - A.2),
        progress := some (u.progress.getD 0 + 10) } := by
  rw [update_transfers, run_transfers_fst_get, hk]
  simp only [Option.map_some', Nat.zero_add]
  rw [tickRow_advance city (sp k) u tgt A B hc htgt hA hB hlt]

/-- Witness for `transfer_lerp_spec` at the halfway row: progress becomes
60 and the position lands at the 60% point of the Baghdad → Basra leg. -/
theorem transfer_lerp_spec_witness :
    (update_transfers "Baghdad" zeroSp [rowMid]).1[0]? =
      some { rowMid with
        x := 333/10 + ((rowMid.progress.getD 0 + 10 : ℤ) : ℚ) / 100 * (305/10 - 333/10),
        y := 444/10 + ((rowMid.progress.getD 0 + 10 : ℤ) : ℚ) / 100 * (478/10 - 444/10),
        progress := some (rowMid.progress.getD 0 + 10) } :=
  transfer_lerp_spec "Baghdad" zeroSp [rowMid] 0 rowMid "Basra"
    (333/10, 444/10) (305/10, 478/10) rfl rfl rfl rfl rfl (by decide)

/-- Row with id 1 living in Baghdad. -/
def rowDup : UAVRow :=
  { uav_id := 1, city_name := "Baghdad", x := 1, y := 2, altitude := 3, speed := 4,
    system_case := "normal", target_city := none, progress := some 5 }

/-- Report for id 1 with fresh field values, addressed to Basra. -/
def dataDup : UAV :=
  { uav_id := 1, x := 9, y := 9, altitude := 9, speed := 9, system_case := "avoidance" }

/-- C5 counterexample: reporting id 1 under city Basra while id 1 lives in
Baghdad does not overwrite the existing entity — the lookup is keyed by
(city, id), so the code takes the insert path, which violates the `uav_id`
primary key; the table is left unchanged with the old field values. -/
theorem upsert_cross_city_cex :
    put_uav "Basra" dataDup [rowDup] = ([rowDup], PutOutcome.integrityError) ∧
    rowDup.x ≠ dataDup.x := by
  constructor
  · norm_num [put_uav, rowDup, dataDup,
      show ¬ (("Baghdad" : String) = "Basra") from by decide]
  · norm_num [rowDup, dataDup]

/-- C5 amended: the upsert is keyed by (zone, entity id), not by id alone.
If the id exists in the named zone, all of its fields are overwritten from
the report; if it does not but the id exists in another zone, the insert
fails with an integrity error and nothing changes; only a globally fresh
id creates a new entity. -/
theorem put_uav_spec (city : String) (d : UAV) (rows : List UAVRow) :
    ((∃ u ∈ rows, u.city_name = city ∧ u.uav_id = d.uav_id) →
      (put_uav city d rows).2 = PutOutcome.ok ∧
      ∀ k : Nat, (put_uav city d rows).1[k]? =
        (rows[k]?).map (fun u =>
          if u.city_name = city ∧ u.uav_id = d.uav_id then overwriteRow city d u
          else u))
    ∧ ((¬ ∃ u ∈ rows, u.city_name = city ∧ u.uav_id = d.uav_id) →
        ((∃ u ∈ rows, u.uav_id = d.uav_id) →
          put_uav city d rows = (rows, PutOutcome.integrityError))
        ∧ ((¬ ∃ u ∈ rows, u.uav_id = d.uav_id) →
          put_uav city d rows = (rows ++ [insertRow city d], PutOutcome.ok))) := by
  constructor
  · intro h
    have hany : rows.any
        (fun u => decide (u.city_name = city ∧ u.uav_id = d.uav_id)) = true := by
      rw [List.any_eq_true]
      simpa using h
    constructor
    · simp only [put_uav, if_pos hany]
    · intro k
      simp only [put_uav, if_pos hany]
      exact List.getElem?_map _ rows k
  · intro h
    have hany : ¬ (rows.any
        (fun u => decide (u.city_name = city ∧ u.uav_id = d.uav_id)) = true) := by
      rw [List.any_eq_true]
      simpa using h
    constructor
    · intro h2
      have hany2 : rows.any (fun u => decide (u.uav_id = d.uav_id)) = true := by
        rw [List.any_eq_true]
        simpa using h2
      simp only [put_uav, if_neg hany, if_pos hany2]
    · intro h2
      have hany2 : ¬ (rows.any (fun u => decide (u.uav_id = d.uav_id)) = true) := by
        rw [List.any_eq_true]
        simpa using h2
      simp only [put_uav, if_neg hany, if_neg hany2]

/-- Witness for `put_uav_spec`: reporting id 1 in its own city Baghdad
succeeds and overwrites the row. -/
theorem put_uav_spec_witness :
    (put_uav "Baghdad" dataDup [rowDup]).2 = PutOutcome.ok ∧
    ∀ k : Nat, (put_uav "Baghdad" dataDup [rowDup]).1[k]? =
      ([rowDup][k]?).map (fun u =>
        if u.city_name = "Baghdad" ∧ u.uav_id = dataDup.uav_id then
          overwriteRow "Baghdad" dataDup u
        else u) :=
  (put_uav_spec "Baghdad" dataDup [rowDup]).1 (by decide)

/-- Transferring row about to arrive in Baghdad from Basra. -/
def rowSpreadOut : UAVRow :=
  { uav_id := 9, city_name := "Basra", x := 305/10, y := 478/10, altitude := 0,
    speed := 1, system_case := "normal", target_city := some "Baghdad",
    progress := some 95 }

/-- Spread draw at the extreme of the allowed range: (0.4, 0.4). -/
def spWide : Nat → ℚ × ℚ := fun _ => (2/5, 2/5)

/-- C6 counterexample: the code contains no clamp and configures no
bounding box; taking the only box derivable from the configuration — the
box spanned by the `CITY_COORDS` anchors — an arrival in Baghdad with the
legal spread draw 0.4 lands at x = 33.7, outside that box, and nothing
pulls it back in. -/
theorem no_clamp_outside_bbox_cex :
    ((update_transfers "Basra" spWide [rowSpreadOut]).1.getD 0 dummyRow).x = 337/10 ∧
    ¬ in_anchor_bbox
        ((update_transfers "Basra" spWide [rowSpreadOut]).1.getD 0 dummyRow).x
        ((update_transfers "Basra" spWide [rowSpreadOut]).1.getD 0 dummyRow).y := by
  norm_num [update_transfers, run_transfers, tickRow, rowSpreadOut, spWide, dummyRow,
    CITY_COORDS_Baghdad, CITY_COORDS_Basra, in_anchor_bbox,
    show min ((105 : ℤ)) 100 = 100 from by decide]

/-- C6 amended: no clamp is applied, but the only position mutations the
simulation performs (interpolation step and arrival spread) keep every row
the transfer step actually updates — with non-negative stored progress and
an in-range spread oracle — inside the anchors' bounding box enlarged by
the 0.4 spread margin. -/
theorem transfer_positions_bounded (city : String) (sp : Nat → ℚ × ℚ)
    (rows : List UAVRow) (k : Nat) (u : UAVRow)
    (hk : rows[k]? = some u) (hf : movedFlag city u = true)
    (h0 : 0 ≤ u.progress.getD 0)
    (hsp : ∀ i : Nat, -(2/5) ≤ (sp i).1 ∧ (sp i).1 ≤ 2/5 ∧
      -(2/5) ≤ (sp i).2 ∧ (sp i).2 ≤ 2/5) :
    ∃ u' : UAVRow, (update_transfers city sp rows).1[k]? = some u' ∧
      in_spread_bbox u'.x u'.y := by
  obtain ⟨hc, tgt, A, B, htgt, hA, hB⟩ := movedFlag_decomp city u hf
  have hA4 := anchor_mem_bbox u.city_name A hA
  have hB4 := anchor_mem_bbox tgt B hB
  unfold in_anchor_bbox at hA4 hB4
  obtain ⟨hAx0, hAx1, hAy0, hAy1⟩ := hA4
  obtain ⟨hBx0, hBx1, hBy0, hBy1⟩ := hB4
  obtain ⟨s1, s2, s3, s4⟩ := hsp k
  rw [update_transfers, run_transfers_fst_get, hk]
  simp only [Option.map_some', Nat.zero_add]
  refine ⟨(tickRow city (sp k) u).1, rfl, ?_⟩
  by_cases hfin : 100 ≤ u.progress.getD 0 + 10
  · rw [tickRow_arrival city (sp k) u tgt A B hc htgt hA hB hfin]
    unfold in_spread_bbox
    refine ⟨?_, ?_, ?_, ?_⟩ <;> dsimp only <;> linarith
  · push_neg at hfin
    rw [tickRow_advance city (sp k) u tgt A B hc htgt hA hB hfin]
    have hp0 : (0 : ℚ) ≤ ((u.progress.getD 0 + 10 : ℤ) : ℚ) / 100 := by
      apply div_nonneg _ (by norm_num)
      have hz : (0 : ℤ) ≤ u.progress.getD 0 + 10 := by omega
      exact_mod_cast hz
    have hp1 : ((u.progress.getD 0 + 10 : ℤ) : ℚ) / 100 ≤ 1 := by
      rw [div_le_one (by norm_num)]
      have hz : (u.progress.getD 0 + 10 : ℤ) ≤ 100 := by omega
      exact_mod_cast hz
    obtain ⟨hx0, hx1⟩ := lerp_mem (305/10) (333/10) A.1 B.1
      (((u.progress.getD 0 + 10 : ℤ) : ℚ) / 100) hAx0 hAx1 hBx0 hBx1 hp0 hp1
    obtain ⟨hy0, hy1⟩ := lerp_mem (4431/100) (478/10) A.2 B.2
      (((u.progress.getD 0 + 10 : ℤ) : ℚ) / 100) hAy0 hAy1 hBy0 hBy1 hp0 hp1
    unfold in_spread_bbox
    refine ⟨?_, ?_, ?_, ?_⟩ <;> dsimp only <;> linarith

/-- Witness for `transfer_positions_bounded` at the halfway row with the
zero spread oracle. -/
theorem transfer_positions_bounded_witness :
    ∃ u' : UAVRow, (update_transfers "Baghdad" zeroSp [rowMid]).1[0]? = some u' ∧
      in_spread_bbox u'.x u'.y :=
  transfer_positions_bounded "Baghdad" zeroSp [rowMid] 0 rowMid rfl (by decide)
    (by decide) (fun i => by norm_num [zeroSp])

/-- A transferring row whose stored progress is negative (the PUT interface
validates no range on `progress`). -/
def rowNeg : UAVRow :=
  { uav_id := 31, city_name := "Baghdad", x := 333/10, y := 444/10, altitude := 0,
    speed := 1, system_case := "normal", target_city := some "Basra",
    progress := some (-20) }

/-- C10 counterexample: with stored progress −20 the step updates the row
(it is selected and counted) yet produces progress −10, outside [0, 100] —
the claimed bound does not hold regardless of the input value. -/
theorem negative_progress_escapes_cex :
    ((update_transfers "Baghdad" zeroSp [rowNeg]).1.getD 0 dummyRow).progress
      = some (-10) ∧
    movedFlag "Baghdad" rowNeg = true ∧
    ¬ (0 ≤ ((update_transfers "Baghdad" zeroSp [rowNeg]).1.getD 0 dummyRow).progress.getD 0) := by
  norm_num [update_transfers, run_transfers, tickRow, movedFlag, rowNeg, zeroSp,
    dummyRow, CITY_COORDS_Baghdad, CITY_COORDS_Basra,
    show min ((-10 : ℤ)) 100 = -10 from by decide]

/-- A transferring row in Najaf headed to Baghdad at progress 0. -/
def rowNajaf : UAVRow :=
  { uav_id := 41, city_name := "Najaf", x := 3199/100, y := 4431/100, altitude := 0,
    speed := 1, system_case := "normal", target_city := some "Baghdad",
    progress := some 0 }

/-- C10 amended: a missing/None progress is treated as 0 and the increment
is capped above at 100, so for every row the step updates whose stored
progress is not negative, the resulting progress lies in [0, 100]; a
negative stored progress can escape below 0. -/
theorem progress_range_spec (city : String) (sp : Nat → ℚ × ℚ)
    (rows : List UAVRow) (k : Nat) (u : UAVRow)
    (hk : rows[k]? = some u) (hf : movedFlag city u = true)
    (h0 : 0 ≤ u.progress.getD 0) :
    ∃ u' : UAVRow, (update_transfers city sp rows).1[k]? = some u' ∧
      0 ≤ u'.progress.getD 0 ∧ u'.progress.getD 0 ≤ 100 := by
  rw [update_transfers, run_transfers_fst_get, hk]
  simp only [Option.map_some', Nat.zero_add]
  exact ⟨(tickRow city (sp k) u).1, rfl, tickRow_progress_range city (sp k) u hf h0⟩

/-- Witness for `progress_range_spec` at the Najaf row with progress 0. -/
theorem progress_range_spec_witness :
    ∃ u' : UAVRow, (update_transfers "Najaf" zeroSp [rowNajaf]).1[0]? = some u' ∧
      0 ≤ u'.progress.getD 0 ∧ u'.progress.getD 0 ≤ 100 :=
  progress_range_spec "Najaf" zeroSp [rowNajaf] 0 rowNajaf rfl (by decide) (by decide)

end UAVSim
